import Mathlib

/-!
Verification of the DriveWise forward-collision-warning core:
the lane-aware collision predictor (`modules/analyzers/collision_predictor.py`),
the lane helpers (`modules/feature_extractors/lane_detector.py`), the per-track
TTC estimator (`modules/analyzers/tracker.py`), and the multi-object tracker
lifecycle (`plugins/kalman_tracker.py`).

Modelling conventions:
* Python floats are embedded as rationals (`ℚ`).  `float('inf')` values that
  flow through TTC computations are embedded with the explicit `RVal` type.
  `math.sqrt` (used only for the pixel-speed magnitude) is kept abstract as a
  function parameter `sqrtQ`, since none of the verified properties depend on
  its value.
* The numeric thresholds live in `config.py`, which is not part of the sources
  here; they are kept as parameters of the definitions, instantiated with the
  spec's example values only in witnesses (see `spec_config`).
* Wall-clock fields (`analysis_time_ms`, perf counters) are omitted: they do
  not influence any of the verified behaviour.
-/

-- The batteries rational primitives are `@[irreducible]`, which blocks
-- `decide` from evaluating concrete rational arithmetic; proofs still go
-- through the kernel unchanged.
attribute [local semireducible] Rat.mul Rat.add Rat.sub Rat.inv

set_option maxRecDepth 10000

namespace DriveWise

/-- Python's `str.lower()`, character by character. -/
def str_lower (s : String) : String := ⟨s.data.map Char.toLower⟩

/-- An extended rational: either `+infinity` (Python's `float('inf')`) or a
finite rational value. -/
inductive RVal where
  | inf : RVal
  | fin : ℚ → RVal
deriving DecidableEq

/-- Comparison `r < c` between an extended value and a finite bound, as Python
evaluates it: `inf < c` is false. -/
def RVal.ltQ : RVal → ℚ → Bool
  | .inf, _ => false
  | .fin q, c => decide (q < c)

/-- Configuration surface read by `IntelligentCollisionPredictor.__init__`.
`config.py` itself is not among the sources, so the values are parameters;
`known_heights` models `config.KNOWN_OBJECT_SIZES[...]['height']`. -/
structure PredictorConfig where
  critical_distance : ℚ
  high_risk_distance : ℚ
  medium_risk_distance : ℚ
  critical_ttc : ℚ
  high_risk_ttc : ℚ
  known_heights : String → Option ℚ

/-- Modelled from the spec: `config.py` is absent from the sources; the spec
gives the example values critical = 10 m and medium = 20 m and
leaves the rest open, so high-risk distance is taken strictly between them and
the TTC thresholds are arbitrary positive seconds.  Only witnesses and concrete
scenarios use this instance; all general theorems quantify over the config. -/
def spec_config : PredictorConfig :=
  { critical_distance := 10
    high_risk_distance := 15
    medium_risk_distance := 20
    critical_ttc := 2
    high_risk_ttc := 4
    known_heights := fun c => if c = "car" then some (3/2) else none }

/-- Axis-aligned bounding box `[x1, y1, x2, y2]` in pixel space. -/
structure BBox where
  x1 : ℚ
  y1 : ℚ
  x2 : ℚ
  y2 : ℚ
deriving DecidableEq

/-- Per-frame lane snapshot (`LaneInfo` in `lane_detector.py`).  A lane
boundary pair is `(left_line, right_line)`; for each line only the two
endpoint x-coordinates are retained, because `get_vehicle_lane` and
`_detect_ego_position` read nothing else of the geometry. -/
structure LaneInfo where
  lane_boundaries : List ((ℚ × ℚ) × (ℚ × ℚ))
  ego_lane_id : ℤ
  lane_change_detected : Bool
  lane_change_direction : String
  frame_width : ℕ
deriving DecidableEq

/-- Result of `_analyze_vehicle_movement` (the movement fields only). -/
structure MovementInfo where
  movement_direction : String
  relative_speed : ℚ
  is_approaching : Bool
  is_changing_lanes : Bool
  lane_change_direction : String
deriving DecidableEq

/-- The triple returned by `_assess_actual_threat`. -/
structure ThreatVerdict where
  is_threat : Bool
  threat_type : String
  threat_score : ℕ
deriving DecidableEq

/-- Lines 247–296 of `collision_predictor.py`: the four-way `if`/`elif`
classification, before the TTC bonus is applied. -/
def assess_base (cfg : PredictorConfig) (vehicle_lane : ℤ) (lane_info : LaneInfo)
    (mv : MovementInfo) (distance : ℚ) : ThreatVerdict :=
  if vehicle_lane = lane_info.ego_lane_id then
    -- Case 1: vehicle in same lane
    if distance < cfg.medium_risk_distance ∧
        (mv.is_approaching = false ∨ mv.relative_speed < 2) then
      ⟨true, "same_lane",
        if distance < cfg.critical_distance then 90
        else if distance < cfg.high_risk_distance then 70
        else 50⟩
    else ⟨false, "none", 0⟩
  else if vehicle_lane = -1 then
    -- Case 2: oncoming traffic (opposite lane)
    if lane_info.lane_change_detected = true ∧
        lane_info.lane_change_direction = "left" ∧
        distance < cfg.high_risk_distance ∧ mv.is_approaching = true then
      ⟨true, "oncoming", 95⟩
    else ⟨false, "none", 0⟩
  else if (vehicle_lane - lane_info.ego_lane_id).natAbs = 1 then
    -- Case 3: adjacent lane vehicle changing into our lane
    let our_lane_direction :=
      if vehicle_lane < lane_info.ego_lane_id then "right" else "left"
    if mv.is_changing_lanes = true ∧
        mv.lane_change_direction = our_lane_direction ∧
        distance < cfg.medium_risk_distance then
      ⟨true, "lane_change", 60⟩
    else ⟨false, "none", 0⟩
  else if lane_info.lane_change_detected = true then
    -- Case 4: we're changing lanes into their lane
    let target_lane := lane_info.ego_lane_id +
      (if lane_info.lane_change_direction = "right" then 1 else -1)
    if vehicle_lane = target_lane ∧ distance < cfg.medium_risk_distance then
      ⟨true, "lane_change", 70⟩
    else ⟨false, "none", 0⟩
  else ⟨false, "none", 0⟩

/-- Lines 298–301 of `collision_predictor.py`: the TTC score bonus. -/
def apply_ttc_bonus (cfg : PredictorConfig) (v : ThreatVerdict) (ttc : RVal) :
    ThreatVerdict :=
  if v.is_threat = true ∧ ttc.ltQ cfg.critical_ttc = true then
    { v with threat_score := min 100 (v.threat_score + 20) }
  else if v.is_threat = true ∧ ttc.ltQ cfg.high_risk_ttc = true then
    { v with threat_score := min 100 (v.threat_score + 10) }
  else v

/-- Model of `_assess_actual_threat`: base classification followed by the TTC bonus. -/
def assess_actual_threat (cfg : PredictorConfig) (vehicle_lane : ℤ)
    (lane_info : LaneInfo) (mv : MovementInfo) (distance : ℚ) (ttc : RVal) :
    ThreatVerdict :=
  apply_ttc_bonus cfg (assess_base cfg vehicle_lane lane_info mv distance) ttc

/-- Mean of the two endpoint x-coordinates of a boundary line
(`np.mean([line[0][0], line[1][0]])`). -/
def line_mean_x (l : ℚ × ℚ) : ℚ := (l.1 + l.2) / 2

/-- The boundary-scanning loop shared by `get_vehicle_lane` and
`_detect_ego_position`: first index whose `[left_x, right_x]` interval
contains `cx`. -/
def find_lane_index : List ((ℚ × ℚ) × (ℚ × ℚ)) → ℚ → ℕ → Option ℕ
  | [], _, _ => none
  | b :: rest, cx, i =>
    if line_mean_x b.1 ≤ cx ∧ cx ≤ line_mean_x b.2 then some i
    else find_lane_index rest cx (i + 1)

/-- Model of `SimpleLaneDetector.get_vehicle_lane` (lines 172–193). -/
def get_vehicle_lane (vehicle_bbox : BBox) (lane_info : LaneInfo) : ℤ :=
  if lane_info.lane_boundaries = [] then 0
  else
    let vehicle_center_x := (vehicle_bbox.x1 + vehicle_bbox.x2) / 2
    match find_lane_index lane_info.lane_boundaries vehicle_center_x 0 with
    | some i => (i : ℤ)
    | none =>
      if vehicle_center_x < ((lane_info.frame_width / 2 : ℕ) : ℚ) then -1 else 1

/-- The ego-lane computation of `_detect_ego_position` (lines 143–158):
`ego_lane_id` starts at 0 (`LaneInfo.__init__`), the function returns
immediately when there are no boundaries, otherwise the first containing
boundary index is taken. -/
def detect_ego_lane_id (boundaries : List ((ℚ × ℚ) × (ℚ × ℚ)))
    (frame_width : ℕ) : ℤ :=
  if boundaries = [] then 0
  else
    match find_lane_index boundaries ((frame_width / 2 : ℕ) : ℚ) 0 with
    | some i => (i : ℤ)
    | none => 0

/-- A tracked object as consumed by the collision predictor: only the fields
the analyzer reads (`track_id`, `class_name`, `bbox`). -/
structure TrackedObj where
  track_id : ℕ
  class_name : String
  bbox : BBox
deriving DecidableEq

/-- The analyzer's per-instance position-history map
(`self.vehicle_history`, `track_id -> position history`), embedded as an
association list with unique keys. -/
abbrev Hist := List (ℕ × List (ℚ × ℚ))

/-- Dictionary read: `self.vehicle_history[track_id]`, empty when absent
(the code inserts `[]` on first sight). -/
def hist_get (h : Hist) (k : ℕ) : List (ℚ × ℚ) :=
  match h.find? (fun p => p.1 == k) with
  | some p => p.2
  | none => []

/-- Dictionary write: replace the entry for `k` when present, append a new
entry otherwise (Python dict insertion order). -/
def hist_put (h : Hist) (k : ℕ) (v : List (ℚ × ℚ)) : Hist :=
  if h.any (fun p => p.1 == k) then
    h.map (fun p => if p.1 == k then (k, v) else p)
  else h ++ [(k, v)]

/-- The history keys currently retained for some track identity. -/
def hist_keys (h : Hist) : List ℕ := h.map Prod.fst

/-- Constant `self.max_history_frames` in `IntelligentCollisionPredictor.__init__`. -/
def max_history_frames : ℕ := 10

/-- Model of `_analyze_vehicle_movement` (lines 186–241): append the current bbox
center to the track's history (dropping the oldest sample past
`max_history_frames`), then classify direction, relative pixel speed and
lane-change flag once at least 3 samples exist.  `sqrtQ` abstracts
`math.sqrt`. -/
def analyze_vehicle_movement (sqrtQ : ℚ → ℚ) (hist : Hist) (veh : TrackedObj) :
    MovementInfo × Hist :=
  let bbox := veh.bbox
  let current_center : ℚ × ℚ := ((bbox.x1 + bbox.x2) / 2, (bbox.y1 + bbox.y2) / 2)
  let lst0 := hist_get hist veh.track_id ++ [current_center]
  let lst := if lst0.length > max_history_frames then lst0.tail else lst0
  let hist' := hist_put hist veh.track_id lst
  let base : MovementInfo :=
    { movement_direction := "unknown"
      relative_speed := 0
      is_approaching := false
      is_changing_lanes := false
      lane_change_direction := "none" }
  if lst.length ≥ 3 then
    let start_pos := lst.headD (0, 0)
    let end_pos := lst.getLastD (0, 0)
    let dx := end_pos.1 - start_pos.1
    let dy := end_pos.2 - start_pos.2
    let mv1 :=
      if |dx| > |dy| then
        if dx > 0 then { base with movement_direction := "right" }
        else { base with movement_direction := "left" }
      else
        if dy > 0 then
          { base with movement_direction := "down", is_approaching := true }
        else { base with movement_direction := "up" }
    let mv2 := { mv1 with relative_speed := sqrtQ (dx * dx + dy * dy) / lst.length }
    let mv3 :=
      if |dx| > 20 then
        { mv2 with is_changing_lanes := true
                   lane_change_direction := if dx > 0 then "right" else "left" }
      else mv2
    (mv3, hist')
  else (base, hist')

/-- Model of `_estimate_distance_fast` (lines 309–325): pinhole estimate from the bbox
height, clamped to `[1, 100]`, defaulting to 50 on a degenerate box. -/
def estimate_distance_fast (cfg : PredictorConfig) (obj : TrackedObj)
    (frame_height : ℕ) : ℚ :=
  let object_height_pixels := obj.bbox.y2 - obj.bbox.y1
  if object_height_pixels ≤ 0 then 50
  else
    let known_height := (cfg.known_heights (str_lower obj.class_name)).getD (3/2)
    let focal_length := (frame_height : ℚ) * (4/5)
    max 1 (min (known_height * focal_length / object_height_pixels) 100)

/-- Model of `_calculate_intelligent_ttc` (lines 327–344). -/
def calculate_intelligent_ttc (mv : MovementInfo) (distance : ℚ) : RVal :=
  if mv.is_approaching = false then .inf
  else if mv.relative_speed < 1/10 then .inf
  else
    let estimated_speed_mps := mv.relative_speed * (1/10)
    .fin (max (1/10) (distance / estimated_speed_mps))

/-- The per-vehicle record assembled by `_analyze_vehicle_threat`. -/
structure ThreatAnalysis where
  object : TrackedObj
  is_threat : Bool
  threat_type : String
  threat_score : ℕ
  distance : ℚ
  ttc : RVal
  vehicle_lane : ℤ
  movement : MovementInfo
deriving DecidableEq

/-- Model of `_analyze_vehicle_threat` (lines 143–184), threading the history map. -/
def analyze_vehicle_threat (cfg : PredictorConfig) (sqrtQ : ℚ → ℚ)
    (hist : Hist) (veh : TrackedObj) (lane_info : LaneInfo)
    (frame_height : ℕ) : ThreatAnalysis × Hist :=
  let distance := estimate_distance_fast cfg veh frame_height
  let vehicle_lane := get_vehicle_lane veh.bbox lane_info
  let mvh := analyze_vehicle_movement sqrtQ hist veh
  let mv := mvh.1
  let ttc := calculate_intelligent_ttc mv distance
  let verdict := assess_actual_threat cfg vehicle_lane lane_info mv distance ttc
  (⟨veh, verdict.is_threat, verdict.threat_type, verdict.threat_score,
    distance, ttc, vehicle_lane, mv⟩, mvh.2)

/-- The per-frame aggregate produced by `analyze_collision_risk`
(sans the wall-clock `analysis_time_ms`). -/
structure RiskResult where
  risk_level : String
  threat_score : ℕ
  primary_threat : Option TrackedObj
  threatening_objects : List ThreatAnalysis
  recommendations : List String
  total_objects : ℕ
  lane_info : Option LaneInfo
  same_lane_threats : ℕ
  oncoming_threats : ℕ
  lane_change_threats : ℕ
deriving DecidableEq

/-- The initial `result` dictionary of `analyze_collision_risk`
(lines 57–69). -/
def init_result (tracked_objects : List TrackedObj) : RiskResult :=
  { risk_level := "None"
    threat_score := 0
    primary_threat := none
    threatening_objects := []
    recommendations := []
    total_objects := tracked_objects.length
    lane_info := none
    same_lane_threats := 0
    oncoming_threats := 0
    lane_change_threats := 0 }

/-- Vehicle-class filter of line 81:
`obj.get('class_name','').lower() in ['car','truck','bus','motorcycle']`. -/
def is_vehicle_class (c : String) : Bool :=
  ["car", "truck", "bus", "motorcycle"].contains (str_lower c)

/-- Lines 114–124 of `analyze_collision_risk`: overall risk level from the
maximum per-vehicle threat score. -/
def risk_level_of_score (s : ℕ) : String :=
  if s ≥ 80 then "Critical"
  else if s ≥ 60 then "High"
  else if s ≥ 40 then "Medium"
  else if s ≥ 20 then "Low"
  else "None"

/-- Model of `_generate_intelligent_recommendations` (lines 346–389). -/
def generate_intelligent_recommendations (risk_level : String)
    (threatening_objects : List ThreatAnalysis) (lane_info : LaneInfo) :
    List String :=
  if threatening_objects = [] then []
  else
    let same_lane_threats := threatening_objects.filter
      (fun t => t.threat_type == "same_lane")
    let oncoming_threats := threatening_objects.filter
      (fun t => t.threat_type == "oncoming")
    let lane_change_threats := threatening_objects.filter
      (fun t => t.threat_type == "lane_change")
    if risk_level = "Critical" then
      ["EMERGENCY BRAKE"] ++
      (if same_lane_threats ≠ [] then ["VEHICLE AHEAD TOO CLOSE"] else []) ++
      (if oncoming_threats ≠ [] then ["ABORT LANE CHANGE - ONCOMING TRAFFIC"] else [])
    else if risk_level = "High" then
      (if same_lane_threats ≠ [] then ["SLOW DOWN - FOLLOWING TOO CLOSE"] else []) ++
      (if lane_change_threats ≠ [] then ["VEHICLE CHANGING LANES"] else []) ++
      (if oncoming_threats ≠ [] then ["CAUTION - ONCOMING DURING LANE CHANGE"] else [])
    else if risk_level = "Medium" then
      (if same_lane_threats ≠ [] then ["MAINTAIN SAFE DISTANCE"] else []) ++
      (if lane_change_threats ≠ [] then ["MONITOR ADJACENT LANES"] else []) ++
      (if lane_info.lane_change_detected then ["LANE CHANGE IN PROGRESS"] else [])
    else if risk_level = "Low" then
      ["STAY ALERT"] ++
      (if lane_info.lane_change_detected then ["COMPLETE LANE CHANGE SAFELY"] else [])
    else []

/-- Accumulator of the vehicle loop in `analyze_collision_risk`
(lines 88–112). -/
structure ThreatAccum where
  threatening_objects : List ThreatAnalysis
  same_lane_threats : ℕ
  oncoming_threats : ℕ
  lane_change_threats : ℕ
  max_threat_score : ℕ
  primary_threat : Option TrackedObj
deriving DecidableEq

/-- One iteration of the vehicle loop (lines 94–112). -/
def threat_loop_step (cfg : PredictorConfig) (sqrtQ : ℚ → ℚ)
    (lane_info : LaneInfo) (frame_height : ℕ)
    (acc : ThreatAccum × Hist) (veh : TrackedObj) : ThreatAccum × Hist :=
  let a := acc.1
  let tah := analyze_vehicle_threat cfg sqrtQ acc.2 veh lane_info frame_height
  let ta := tah.1
  let h' := tah.2
  if ta.is_threat = true then
    let a1 := { a with
      threatening_objects := a.threatening_objects ++ [ta]
      same_lane_threats :=
        if ta.threat_type = "same_lane" then a.same_lane_threats + 1
        else a.same_lane_threats
      oncoming_threats :=
        if ta.threat_type = "oncoming" then a.oncoming_threats + 1
        else a.oncoming_threats
      lane_change_threats :=
        if ta.threat_type = "lane_change" then a.lane_change_threats + 1
        else a.lane_change_threats }
    if ta.threat_score > a.max_threat_score then
      ({ a1 with max_threat_score := ta.threat_score, primary_threat := some veh }, h')
    else (a1, h')
  else (a, h')

/-- Model of `analyze_collision_risk` (lines 43–141), with the frame replaced by its
height and the lane detector's per-frame output `lane_info` (the only datum
the analyzer reads from the frame).  Returns the result together with the
updated `vehicle_history` map. -/
def analyze_collision_risk (cfg : PredictorConfig) (sqrtQ : ℚ → ℚ)
    (hist : Hist) (tracked_objects : List TrackedObj) (lane_info : LaneInfo)
    (frame_height : ℕ) : RiskResult × Hist :=
  let result := init_result tracked_objects
  if tracked_objects = [] then (result, hist)
  else
    let result := { result with lane_info := some lane_info }
    let vehicles := tracked_objects.filter (fun o => is_vehicle_class o.class_name)
    if vehicles = [] then (result, hist)
    else
      let ah := vehicles.foldl
        (threat_loop_step cfg sqrtQ lane_info frame_height)
        (⟨[], 0, 0, 0, 0, none⟩, hist)
      let a := ah.1
      let risk_level := risk_level_of_score a.max_threat_score
      let recommendations :=
        generate_intelligent_recommendations risk_level a.threatening_objects lane_info
      ({ result with
          risk_level := risk_level
          threat_score := a.max_threat_score
          primary_threat := a.primary_threat
          threatening_objects := a.threatening_objects
          recommendations := recommendations
          same_lane_threats := a.same_lane_threats
          oncoming_threats := a.oncoming_threats
          lane_change_threats := a.lane_change_threats }, ah.2)

/-- Model of `TrackedObject._calculate_time_to_collision` in
`modules/analyzers/tracker.py` (lines 166–190).  `prev_ttc` is the field's
value before the call (retained when fewer than 2 history samples exist),
`velocity_y` is `self.velocity[1]` and `closing_speed` abstracts
`np.linalg.norm(self.real_world_velocity)` (a non-negative magnitude).
`ttc_cap` is the final capping step (lines 188–190); note Python's
`inf > 60` is true, so the infinite case stays infinite. -/
def ttc_cap : RVal → RVal
  | .inf => .inf
  | .fin q => if 60 < q then .inf else .fin q

def calculate_time_to_collision (prev_ttc : RVal) (distance_estimate : ℚ)
    (history_length : ℕ) (velocity_y : ℚ) (closing_speed : ℚ) : RVal :=
  if distance_estimate ≤ 0 then .inf
  else
    ttc_cap
      (if history_length ≥ 2 then
        if velocity_y > 0 ∧ closing_speed > 1/10 then
          RVal.fin (distance_estimate / closing_speed)
        else .inf
      else prev_ttc)

/-- A produced TTC value is well-formed when it is `+infinity` or a finite
strictly positive number. -/
def RVal.well_formed : RVal → Prop
  | .inf => True
  | .fin q => 0 < q

namespace KalmanTracker

/-- Constant `self.max_age = 5` in `KalmanTracker.__init__`. -/
def max_age : ℕ := 5

/-- Constant `self.min_hits = 2` in `KalmanTracker.__init__`. -/
def min_hits : ℕ := 2

/-- The lifecycle counters of one `FastKalmanFilter` track.  The kinematic
state (position, covariance, bbox) never feeds back into the lifecycle
decisions, so it is not carried here. -/
structure Track where
  id : ℕ
  hits : ℕ
  time_since_update : ℕ
  age : ℕ
deriving DecidableEq

/-- The tracker's persistent state (`self.trackers`, `self.next_id`). -/
structure TrackerState where
  trackers : List Track
  next_id : ℕ

/-- One frame's association outcome, abstracted as an oracle: `matched i`
says whether the IoU/Hungarian association step matched the track with id
`i` to some detection this frame (each track index is matched at most once),
and `new_count` is the number of unmatched detections with confidence above
the creation threshold. -/
structure UpdateInput where
  matched : ℕ → Bool
  new_count : ℕ

/-- Model of one `KalmanTracker.update` call (lines 104–185): predict (every track's
`time_since_update` and `age` advance), measurement-update the matched
tracks (`hits + 1`, `time_since_update := 0`), spawn fresh tracks for the
surviving unmatched detections, then prune every track whose
`time_since_update` exceeds `max_age`. -/
def step (s : TrackerState) (u : UpdateInput) : TrackerState :=
  let predicted := s.trackers.map fun t =>
    { t with time_since_update := t.time_since_update + 1, age := t.age + 1 }
  let updated := predicted.map fun t =>
    if u.matched t.id then { t with hits := t.hits + 1, time_since_update := 0 }
    else t
  let fresh := (List.range u.new_count).map fun i =>
    { id := s.next_id + i, hits := 1, time_since_update := 0, age := 0 : Track }
  { trackers := (updated ++ fresh).filter fun t => t.time_since_update ≤ max_age
    next_id := s.next_id + u.new_count }

/-- The emission filter at the end of `update` (lines 153–175): only tracks
with `hits >= min_hits` or `time_since_update == 0` are output. -/
def emit (s : TrackerState) : List Track :=
  s.trackers.filter fun t => min_hits ≤ t.hits || t.time_since_update == 0

/-- A whole sequence of `update` calls. -/
def run (s : TrackerState) (us : List UpdateInput) : TrackerState :=
  us.foldl step s

/-- State invariant maintained by the tracker: every live track id was
allocated below `next_id`, and ids are pairwise distinct. -/
def wf (s : TrackerState) : Prop :=
  (∀ t ∈ s.trackers, t.id < s.next_id) ∧ (s.trackers.map Track.id).Nodup

end KalmanTracker

namespace KalmanTracker

lemma mem_step_ids (s : TrackerState) (u : UpdateInput) (i : ℕ)
    (hmem : i ∈ (step s u).trackers.map Track.id) :
    i ∈ s.trackers.map Track.id ∨
      (s.next_id ≤ i ∧ i < s.next_id + u.new_count) := by
  unfold step at hmem
  rcases List.mem_map.mp hmem with ⟨t, ht, rfl⟩
  rcases List.mem_filter.mp ht with ⟨htm, _⟩
  rcases List.mem_append.mp htm with hold | hfresh
  · left
    rcases List.mem_map.mp hold with ⟨t1, ht1, rfl⟩
    rcases List.mem_map.mp ht1 with ⟨t0, ht0, rfl⟩
    apply List.mem_map.mpr
    refine ⟨t0, ht0, ?_⟩
    split_ifs <;> rfl
  · right
    rcases List.mem_map.mp hfresh with ⟨k, hk, rfl⟩
    rw [List.mem_range] at hk
    refine ⟨by simp, ?_⟩
    simp only [Track.mk.injEq]
    omega

lemma id_absent_step (s : TrackerState) (u : UpdateInput) (i : ℕ)
    (hlt : i < s.next_id) (habs : i ∉ s.trackers.map Track.id) :
    i ∉ (step s u).trackers.map Track.id ∧ i < (step s u).next_id := by
  constructor
  · intro hmem
    rcases mem_step_ids s u i hmem with h | h
    · exact habs h
    · omega
  · show i < s.next_id + u.new_count
    omega

lemma updated_ids (s : TrackerState) (u : UpdateInput) :
    ((s.trackers.map fun t =>
        { t with time_since_update := t.time_since_update + 1,
                 age := t.age + 1 }).map fun t =>
      if u.matched t.id then
        { t with hits := t.hits + 1, time_since_update := 0 }
      else t).map Track.id = s.trackers.map Track.id := by
  simp only [List.map_map]
  apply List.map_congr_left
  intro t _
  simp only [Function.comp_apply]
  split_ifs <;> rfl

lemma wf_step (s : TrackerState) (u : UpdateInput) (hwf : wf s) :
    wf (step s u) := by
  obtain ⟨hlt, hnd⟩ := hwf
  have hfreshnd : (((List.range u.new_count).map
      fun k => s.next_id + k)).Nodup :=
    (List.nodup_range _).map fun a b hab => by omega
  have hdisj : (s.trackers.map Track.id).Disjoint
      ((List.range u.new_count).map fun k => s.next_id + k) := by
    intro a ha hb
    rcases List.mem_map.mp ha with ⟨t0, ht0, rfl⟩
    rcases List.mem_map.mp hb with ⟨k, hk, hek⟩
    have h0 := hlt t0 ht0
    omega
  constructor
  · intro t ht
    have hmem : t.id ∈ (step s u).trackers.map Track.id :=
      List.mem_map.mpr ⟨t, ht, rfl⟩
    rcases mem_step_ids s u t.id hmem with h | h
    · rcases List.mem_map.mp h with ⟨t0, ht0, hid⟩
      have := hlt t0 ht0
      show t.id < s.next_id + u.new_count
      omega
    · show t.id < s.next_id + u.new_count
      omega
  · have hsub : ((step s u).trackers.map Track.id).Sublist
        (s.trackers.map Track.id ++
          (List.range u.new_count).map fun k => s.next_id + k) := by
      unfold step
      refine List.Sublist.trans
        (List.Sublist.map _ (List.filter_sublist _)) ?_
      rw [List.map_append, updated_ids, List.map_map]
      exact List.Sublist.refl _
    exact List.Nodup.sublist hsub (List.Nodup.append hnd hfreshnd hdisj)

lemma stale_unmatched_removed (s : TrackerState) (u : UpdateInput)
    (hwf : wf s) (t : Track) (ht : t ∈ s.trackers)
    (hstale : max_age ≤ t.time_since_update)
    (hunmatched : u.matched t.id = false) :
    t.id ∉ (step s u).trackers.map Track.id := by
  obtain ⟨hlt, hnd⟩ := hwf
  intro hmem
  unfold step at hmem
  rcases List.mem_map.mp hmem with ⟨t', ht', hid⟩
  rcases List.mem_filter.mp ht' with ⟨htm, hsurv⟩
  rcases List.mem_append.mp htm with hold | hfresh
  · rcases List.mem_map.mp hold with ⟨t1, ht1, ht1e⟩
    rcases List.mem_map.mp ht1 with ⟨t0, ht0, ht0e⟩
    have hid0 : t0.id = t.id := by
      rw [← hid, ← ht1e, ← ht0e]
      split_ifs <;> rfl
    have ht0t : t0 = t := List.inj_on_of_nodup_map hnd ht0 ht hid0
    subst ht0t
    subst ht0e
    subst ht1e
    simp only [hunmatched, Bool.false_eq_true, if_false,
      decide_eq_true_eq] at hsurv
    omega
  · rcases List.mem_map.mp hfresh with ⟨k, hk, hke⟩
    have h0 := hlt t ht
    rw [← hke] at hid
    simp only at hid
    omega

lemma id_absent_run (us : List UpdateInput) (s : TrackerState) (i : ℕ)
    (hlt : i < s.next_id) (habs : i ∉ s.trackers.map Track.id) :
    i ∉ (run s us).trackers.map Track.id := by
  induction us generalizing s with
  | nil => exact habs
  | cons u us ih =>
    have h := id_absent_step s u i hlt habs
    exact ih (step s u) h.2 h.1

lemma emit_ids_subset (s : TrackerState) (i : ℕ)
    (h : i ∈ (emit s).map Track.id) : i ∈ s.trackers.map Track.id := by
  rcases List.mem_map.mp h with ⟨t, ht, rfl⟩
  exact List.mem_map.mpr ⟨t, (List.mem_filter.mp ht).1, rfl⟩

end KalmanTracker

/-- Ordinal rank of the frame risk levels:
None < Low < Medium < High < Critical. -/
def risk_rank (l : String) : ℕ :=
  if l = "Critical" then 4
  else if l = "High" then 3
  else if l = "Medium" then 2
  else if l = "Low" then 1
  else 0

/-! ### Helper lemmas -/

lemma apply_ttc_bonus_is_threat (cfg : PredictorConfig) (v : ThreatVerdict)
    (ttc : RVal) : (apply_ttc_bonus cfg v ttc).is_threat = v.is_threat := by
  unfold apply_ttc_bonus
  split_ifs <;> rfl

lemma apply_ttc_bonus_threat_type (cfg : PredictorConfig) (v : ThreatVerdict)
    (ttc : RVal) : (apply_ttc_bonus cfg v ttc).threat_type = v.threat_type := by
  unfold apply_ttc_bonus
  split_ifs <;> rfl

lemma risk_rank_of_score (s : ℕ) :
    risk_rank (risk_level_of_score s) =
      if 80 ≤ s then 4 else if 60 ≤ s then 3 else if 40 ≤ s then 2
      else if 20 ≤ s then 1 else 0 := by
  unfold risk_level_of_score risk_rank
  split_ifs <;> simp_all

/-! ### Claim theorems -/

/-- C5: the frame-level risk level is the fixed monotone step function of the
maximum per-vehicle threat score (≥80 `Critical`, ≥60 `High`, ≥40 `Medium`,
≥20 `Low`, else `None`); for any scores `A > B` the ordinal rank of
`risk_level A` is at least that of `risk_level B`. -/
theorem C5_risk_level_step_monotone :
    (∀ A B : ℕ, B < A →
      risk_rank (risk_level_of_score B) ≤ risk_rank (risk_level_of_score A)) ∧
    risk_level_of_score 80 = "Critical" ∧ risk_level_of_score 79 = "High" ∧
    risk_level_of_score 60 = "High" ∧ risk_level_of_score 59 = "Medium" ∧
    risk_level_of_score 40 = "Medium" ∧ risk_level_of_score 39 = "Low" ∧
    risk_level_of_score 20 = "Low" ∧ risk_level_of_score 19 = "None" ∧
    risk_level_of_score 0 = "None" := by
  refine ⟨fun A B hBA => ?_, by decide, by decide, by decide, by decide,
    by decide, by decide, by decide, by decide, by decide⟩
  rw [risk_rank_of_score, risk_rank_of_score]
  split_ifs <;> omega

/-- Witness for C5 at the concrete pair of scores 90 > 50. -/
theorem C5_witness :
    (50 : ℕ) < 90 ∧
    risk_rank (risk_level_of_score 50) ≤ risk_rank (risk_level_of_score 90) :=
  ⟨by decide, C5_risk_level_step_monotone.1 90 50 (by decide)⟩

/-- C1 as stated is false on the code: with ego lane 1, a detected rightward
ego lane change (target lane 2), a vehicle in lane 2 at distance 5 < medium
threshold that is not itself changing lanes (so no earlier case classifies a
threat), the classifier returns `is_threat = false`, not a score-70
`lane_change` threat. -/
theorem C1_counterexample :
    (let lane : LaneInfo := ⟨[], 1, true, "right", 1280⟩
     let mv : MovementInfo := ⟨"unknown", 0, false, false, "none"⟩
     lane.lane_change_detected = true ∧
     (2 : ℤ) = lane.ego_lane_id +
       (if lane.lane_change_direction = "right" then 1 else -1) ∧
     (2 : ℤ) ≠ lane.ego_lane_id ∧
     (5 : ℚ) < spec_config.medium_risk_distance ∧
     mv.is_changing_lanes = false ∧
     assess_actual_threat spec_config 2 lane mv 5 RVal.inf =
       ⟨false, "none", 0⟩) := by
  decide

/-- C1 (amended): the "ego merging into vehicle's lane" case of
`_assess_actual_threat` is unreachable.  Whenever ego's lane change is
detected and the vehicle occupies ego's target lane (ego lane ± 1 by
direction), the earlier adjacent-lane `elif` (or, for target lane -1, the
oncoming `elif`) captures the vehicle first; if the vehicle is not itself
changing lanes and is not in the oncoming sentinel lane, the classifier
therefore returns `is_threat = false`, `threat_type = "none"`, score 0 —
the score-70 branch is dead code. -/
theorem C1_ego_merge_case_unreachable
    (cfg : PredictorConfig) (lane : LaneInfo) (mv : MovementInfo)
    (vehicle_lane : ℤ) (distance : ℚ) (ttc : RVal)
    (hlc : lane.lane_change_detected = true)
    (htarget : vehicle_lane = lane.ego_lane_id +
      (if lane.lane_change_direction = "right" then 1 else -1))
    (hnotOncoming : vehicle_lane ≠ -1)
    (hnotChanging : mv.is_changing_lanes = false) :
    assess_actual_threat cfg vehicle_lane lane mv distance ttc =
      ⟨false, "none", 0⟩ := by
  have hne : vehicle_lane ≠ lane.ego_lane_id := by
    have h := htarget
    split_ifs at h <;> omega
  have hadj : (vehicle_lane - lane.ego_lane_id).natAbs = 1 := by
    have h := htarget
    split_ifs at h <;> omega
  have hbase : assess_base cfg vehicle_lane lane mv distance =
      ⟨false, "none", 0⟩ := by
    unfold assess_base
    split_ifs <;> simp_all
  unfold assess_actual_threat
  rw [hbase]
  unfold apply_ttc_bonus
  split_ifs <;> simp_all

/-- Witness for C1's amended theorem: ego lane 1 changing right, vehicle in
target lane 2 at distance 5, not itself changing lanes. -/
theorem C1_witness :
    assess_actual_threat spec_config 2 ⟨[], 1, true, "right", 1280⟩
      ⟨"unknown", 0, false, false, "none"⟩ 5 RVal.inf = ⟨false, "none", 0⟩ :=
  C1_ego_merge_case_unreachable spec_config ⟨[], 1, true, "right", 1280⟩
    ⟨"unknown", 0, false, false, "none"⟩ 2 5 RVal.inf (by decide) (by decide)
    (by decide) (by decide)

/-- C3: a vehicle whose lane index equals ego's is a threat iff its distance
is below the medium threshold and it is not approaching quickly (not
approaching, or relative pixel speed < 2); the base score is tiered 90/70/50
by the critical/high distance chain.  Consequently a single car in ego's lane
at 8 m (< critical) and not approaching yields `threat_type = "same_lane"`,
threat score 90 and frame risk level `Critical`. -/
theorem C3_same_lane_rule :
    (∀ (cfg : PredictorConfig) (lane : LaneInfo) (mv : MovementInfo)
        (d : ℚ) (ttc : RVal),
      (((assess_actual_threat cfg lane.ego_lane_id lane mv d ttc).is_threat = true) ↔
        (d < cfg.medium_risk_distance ∧
          (mv.is_approaching = false ∨ mv.relative_speed < 2))) ∧
      ((assess_actual_threat cfg lane.ego_lane_id lane mv d ttc).is_threat = true →
        (assess_actual_threat cfg lane.ego_lane_id lane mv d ttc).threat_type =
            "same_lane" ∧
        (d < cfg.critical_distance →
          (assess_base cfg lane.ego_lane_id lane mv d).threat_score = 90) ∧
        (¬ d < cfg.critical_distance → d < cfg.high_risk_distance →
          (assess_base cfg lane.ego_lane_id lane mv d).threat_score = 70) ∧
        (¬ d < cfg.critical_distance → ¬ d < cfg.high_risk_distance →
          (assess_base cfg lane.ego_lane_id lane mv d).threat_score = 50))) ∧
    (let r := (analyze_collision_risk spec_config (fun _ => 0) []
        [⟨1, "car", ⟨100, 0, 160, 15⟩⟩] ⟨[], 0, false, "none", 1280⟩ 100).1
     estimate_distance_fast spec_config ⟨1, "car", ⟨100, 0, 160, 15⟩⟩ 100 = 8 ∧
     (8 : ℚ) < spec_config.critical_distance ∧
     r.risk_level = "Critical" ∧ r.threat_score = 90 ∧
     r.threatening_objects.map (fun t => t.threat_type) = ["same_lane"]) := by
  constructor
  · intro cfg lane mv d ttc
    have hb : assess_base cfg lane.ego_lane_id lane mv d =
        if d < cfg.medium_risk_distance ∧
            (mv.is_approaching = false ∨ mv.relative_speed < 2) then
          ⟨true, "same_lane",
            if d < cfg.critical_distance then 90
            else if d < cfg.high_risk_distance then 70
            else 50⟩
        else ⟨false, "none", 0⟩ := by
      unfold assess_base
      rw [if_pos rfl]
    constructor
    · unfold assess_actual_threat
      rw [apply_ttc_bonus_is_threat, hb]
      by_cases hC : d < cfg.medium_risk_distance ∧
          (mv.is_approaching = false ∨ mv.relative_speed < 2) <;> simp [hC]
    · intro ht
      have hC : d < cfg.medium_risk_distance ∧
          (mv.is_approaching = false ∨ mv.relative_speed < 2) := by
        by_contra hC
        rw [assess_actual_threat, apply_ttc_bonus_is_threat, hb, if_neg hC] at ht
        exact absurd ht (by simp)
      refine ⟨?_, ?_, ?_, ?_⟩
      · rw [assess_actual_threat, apply_ttc_bonus_threat_type, hb, if_pos hC]
      · intro h1
        rw [hb, if_pos hC]
        simp [h1]
      · intro h1 h2
        rw [hb, if_pos hC]
        simp [h1, h2]
      · intro h1 h2
        rw [hb, if_pos hC]
        simp [h1, h2]
  · decide

/-- Witness for C3's general part: ego lane 0, an 8 m stationary
(`is_approaching = false`) vehicle, infinite TTC, spec thresholds. -/
theorem C3_witness :
    (assess_actual_threat spec_config 0 ⟨[], 0, false, "none", 1280⟩
        ⟨"unknown", 0, false, false, "none"⟩ 8 RVal.inf).is_threat = true ∧
    (assess_actual_threat spec_config 0 ⟨[], 0, false, "none", 1280⟩
        ⟨"unknown", 0, false, false, "none"⟩ 8 RVal.inf).threat_type =
      "same_lane" ∧
    (assess_base spec_config 0 ⟨[], 0, false, "none", 1280⟩
        ⟨"unknown", 0, false, false, "none"⟩ 8).threat_score = 90 := by
  have h := (C3_same_lane_rule.1 spec_config ⟨[], 0, false, "none", 1280⟩
    ⟨"unknown", 0, false, false, "none"⟩ 8 RVal.inf)
  have ht := h.1.mpr (by decide)
  exact ⟨ht, (h.2 ht).1, (h.2 ht).2.1 (by decide)⟩

/-- C4: a vehicle in the oncoming sentinel lane (-1) is a threat iff ego's
lane change is detected with direction `"left"`, the distance is below the
high-risk threshold and the vehicle is approaching; the threat is typed
`"oncoming"` with base score 95, and without a detected ego lane change the
vehicle is never a threat.  (The ego lane index produced by
`_detect_ego_position` is always ≥ 0, so the sentinel -1 never collides with
the same-lane case.) -/
theorem C4_oncoming_rule :
    (∀ (boundaries : List ((ℚ × ℚ) × (ℚ × ℚ))) (w : ℕ),
      0 ≤ detect_ego_lane_id boundaries w) ∧
    ∀ (cfg : PredictorConfig) (lane : LaneInfo) (mv : MovementInfo)
      (d : ℚ) (ttc : RVal),
      0 ≤ lane.ego_lane_id →
      (((assess_actual_threat cfg (-1) lane mv d ttc).is_threat = true) ↔
        (lane.lane_change_detected = true ∧
          lane.lane_change_direction = "left" ∧
          d < cfg.high_risk_distance ∧ mv.is_approaching = true)) ∧
      ((assess_actual_threat cfg (-1) lane mv d ttc).is_threat = true →
        (assess_actual_threat cfg (-1) lane mv d ttc).threat_type =
            "oncoming" ∧
        (assess_base cfg (-1) lane mv d).threat_score = 95) ∧
      (lane.lane_change_detected = false →
        (assess_actual_threat cfg (-1) lane mv d ttc).is_threat = false) := by
  constructor
  · intro bs w
    unfold detect_ego_lane_id
    split_ifs
    · simp
    · cases h : find_lane_index bs ((w / 2 : ℕ) : ℚ) 0 <;> simp [h]
  · intro cfg lane mv d ttc hego
    have hne : ¬((-1 : ℤ) = lane.ego_lane_id) := by omega
    have hb : assess_base cfg (-1) lane mv d =
        if lane.lane_change_detected = true ∧
            lane.lane_change_direction = "left" ∧
            d < cfg.high_risk_distance ∧ mv.is_approaching = true then
          ⟨true, "oncoming", 95⟩
        else ⟨false, "none", 0⟩ := by
      unfold assess_base
      rw [if_neg hne, if_pos rfl]
    have hiff : ((assess_actual_threat cfg (-1) lane mv d ttc).is_threat = true) ↔
        (lane.lane_change_detected = true ∧
          lane.lane_change_direction = "left" ∧
          d < cfg.high_risk_distance ∧ mv.is_approaching = true) := by
      unfold assess_actual_threat
      rw [apply_ttc_bonus_is_threat, hb]
      by_cases hC : lane.lane_change_detected = true ∧
          lane.lane_change_direction = "left" ∧
          d < cfg.high_risk_distance ∧ mv.is_approaching = true <;> simp [hC]
    refine ⟨hiff, ?_, ?_⟩
    · intro ht
      have hC := hiff.mp ht
      constructor
      · rw [assess_actual_threat, apply_ttc_bonus_threat_type, hb, if_pos hC]
      · rw [hb, if_pos hC]
    · intro hnc
      by_contra hthreat
      have hC := hiff.mp (by simpa using hthreat)
      rw [hnc] at hC
      exact absurd hC.1 (by simp)

/-- Witness for C4: spec thresholds, ego lane 0 with a detected leftward lane
change, oncoming vehicle at distance 5 approaching. -/
theorem C4_witness :
    ((assess_actual_threat spec_config (-1) ⟨[], 0, true, "left", 1280⟩
        ⟨"down", 1, true, false, "none"⟩ 5 RVal.inf).is_threat = true) ∧
    (assess_base spec_config (-1) ⟨[], 0, true, "left", 1280⟩
        ⟨"down", 1, true, false, "none"⟩ 5).threat_score = 95 := by
  have h := (C4_oncoming_rule.2 spec_config ⟨[], 0, true, "left", 1280⟩
    ⟨"down", 1, true, false, "none"⟩ 5 RVal.inf (by decide))
  have ht := h.1.mpr (by decide)
  exact ⟨ht, (h.2.1 ht).2⟩

/-- C10: with no detected lane boundaries, `get_vehicle_lane` returns 0 for
every bounding box and the ego lane index is 0, so every assessed vehicle
falls into the same-lane case: no vehicle is ever classified `"oncoming"`
or `"lane_change"` in such a frame. -/
theorem C10_no_lane_geometry_same_lane_only
    (lane : LaneInfo) (bbox : BBox) (w : ℕ)
    (hbound : lane.lane_boundaries = []) :
    get_vehicle_lane bbox lane = 0 ∧
    detect_ego_lane_id [] w = 0 ∧
    (lane.ego_lane_id = 0 →
      get_vehicle_lane bbox lane = lane.ego_lane_id ∧
      ∀ (cfg : PredictorConfig) (mv : MovementInfo) (d : ℚ) (ttc : RVal),
        (assess_actual_threat cfg (get_vehicle_lane bbox lane) lane mv d
            ttc).threat_type ≠ "oncoming" ∧
        (assess_actual_threat cfg (get_vehicle_lane bbox lane) lane mv d
            ttc).threat_type ≠ "lane_change" ∧
        ((assess_actual_threat cfg (get_vehicle_lane bbox lane) lane mv d
            ttc).threat_type = "none" ∨
          (assess_actual_threat cfg (get_vehicle_lane bbox lane) lane mv d
            ttc).threat_type = "same_lane")) := by
  have hgl : get_vehicle_lane bbox lane = 0 := by
    unfold get_vehicle_lane
    rw [if_pos hbound]
  refine ⟨hgl, by unfold detect_ego_lane_id; rw [if_pos rfl], ?_⟩
  intro hego
  refine ⟨by rw [hgl, hego], ?_⟩
  intro cfg mv d ttc
  have hb : assess_base cfg (get_vehicle_lane bbox lane) lane mv d =
      if d < cfg.medium_risk_distance ∧
          (mv.is_approaching = false ∨ mv.relative_speed < 2) then
        ⟨true, "same_lane",
          if d < cfg.critical_distance then 90
          else if d < cfg.high_risk_distance then 70
          else 50⟩
      else ⟨false, "none", 0⟩ := by
    unfold assess_base
    rw [hgl, hego, if_pos rfl]
  have htype : (assess_actual_threat cfg (get_vehicle_lane bbox lane) lane mv d
      ttc).threat_type = "none" ∨
      (assess_actual_threat cfg (get_vehicle_lane bbox lane) lane mv d
          ttc).threat_type = "same_lane" := by
    rw [assess_actual_threat, apply_ttc_bonus_threat_type, hb]
    by_cases hC : d < cfg.medium_risk_distance ∧
        (mv.is_approaching = false ∨ mv.relative_speed < 2) <;> simp [hC]
  refine ⟨?_, ?_, htype⟩ <;> rcases htype with h | h <;> rw [h] <;> decide

/-- Witness for C10 at a concrete boundary-free frame. -/
theorem C10_witness :
    get_vehicle_lane ⟨100, 0, 160, 15⟩ ⟨[], 0, false, "none", 1280⟩ = 0 ∧
    (assess_actual_threat spec_config
        (get_vehicle_lane ⟨100, 0, 160, 15⟩ ⟨[], 0, false, "none", 1280⟩)
        ⟨[], 0, false, "none", 1280⟩ ⟨"unknown", 0, false, false, "none"⟩ 8
        RVal.inf).threat_type ≠ "oncoming" := by
  have h := C10_no_lane_geometry_same_lane_only ⟨[], 0, false, "none", 1280⟩
    ⟨100, 0, 160, 15⟩ 640 (by decide)
  exact ⟨h.1, ((h.2.2 (by decide)).2 spec_config
    ⟨"unknown", 0, false, false, "none"⟩ 8 RVal.inf).1⟩

/-- C8: both TTC computations produce only `+infinity` or a finite value
strictly greater than 0; they return `+infinity` whenever the object is not
approaching or the closing speed is below the small epsilon, and the
per-track estimator replaces any computed TTC above 60 s by `+infinity`. -/
theorem C8_ttc_well_formed :
    (∀ (mv : MovementInfo) (d : ℚ),
      (calculate_intelligent_ttc mv d).well_formed ∧
      (mv.is_approaching = false → calculate_intelligent_ttc mv d = RVal.inf) ∧
      (mv.relative_speed < 1/10 → calculate_intelligent_ttc mv d = RVal.inf)) ∧
    (∀ (prev : RVal) (d : ℚ) (n : ℕ) (vy cs : ℚ),
      prev.well_formed →
      (calculate_time_to_collision prev d n vy cs).well_formed ∧
      (2 ≤ n → ¬ 0 < vy →
        calculate_time_to_collision prev d n vy cs = RVal.inf) ∧
      (2 ≤ n → cs < 1/10 →
        calculate_time_to_collision prev d n vy cs = RVal.inf) ∧
      (∀ q : ℚ, 60 < q →
        calculate_time_to_collision prev d n vy cs ≠ RVal.fin q)) := by
  constructor
  · intro mv d
    refine ⟨?_, ?_, ?_⟩
    · unfold calculate_intelligent_ttc
      split_ifs with h1 h2
      · trivial
      · trivial
      · simp only [RVal.well_formed]
        exact lt_of_lt_of_le (by norm_num) (le_max_left _ _)
    · intro h
      unfold calculate_intelligent_ttc
      rw [if_pos h]
    · intro h
      unfold calculate_intelligent_ttc
      split_ifs with h1
      · rfl
      · rfl
  · intro prev d n vy cs hwf
    have hcap : ∀ t : RVal, t.well_formed →
        (ttc_cap t).well_formed ∧
          ∀ q : ℚ, 60 < q → ttc_cap t ≠ RVal.fin q := by
      intro t hwt
      cases t with
      | inf => exact ⟨trivial, fun q _ => by simp [ttc_cap]⟩
      | fin r =>
        rw [ttc_cap]
        split_ifs with h60
        · exact ⟨trivial, fun q _ => by simp⟩
        · refine ⟨hwt, ?_⟩
          intro q hq hEq
          cases hEq
          exact h60 hq
    by_cases hd : d ≤ 0
    · refine ⟨?_, ?_, ?_, ?_⟩
      · unfold calculate_time_to_collision
        rw [if_pos hd]
        trivial
      · intro _ _
        unfold calculate_time_to_collision
        rw [if_pos hd]
      · intro _ _
        unfold calculate_time_to_collision
        rw [if_pos hd]
      · intro q _
        unfold calculate_time_to_collision
        rw [if_pos hd]
        simp
    · have hstep : calculate_time_to_collision prev d n vy cs =
          ttc_cap (if 2 ≤ n then
              if 0 < vy ∧ 1/10 < cs then RVal.fin (d / cs) else RVal.inf
            else prev) := by
        unfold calculate_time_to_collision
        rw [if_neg hd]
      by_cases hn : 2 ≤ n
      · by_cases hc : 0 < vy ∧ 1/10 < cs
        · have hq : (0 : ℚ) < d / cs :=
            div_pos (lt_of_not_le hd) (lt_trans (by norm_num) hc.2)
          have h := hcap (RVal.fin (d / cs)) hq
          rw [hstep, if_pos hn, if_pos hc]
          exact ⟨h.1, fun _ hvy => absurd hc.1 hvy,
            fun _ hcs => absurd hc.2 (by linarith), h.2⟩
        · have hres : calculate_time_to_collision prev d n vy cs = RVal.inf := by
            rw [hstep, if_pos hn, if_neg hc]
            rfl
          exact ⟨by rw [hres]; trivial, fun _ _ => hres, fun _ _ => hres,
            fun q _ => by rw [hres]; simp⟩
      · have h := hcap prev hwf
        rw [hstep, if_neg hn]
        exact ⟨h.1, fun hn2 _ => absurd hn2 hn, fun hn2 _ => absurd hn2 hn, h.2⟩

/-- Witness for C8's per-track part: a previously infinite TTC, distance 5,
2 history samples, downward pixel velocity 1 and closing speed 1. -/
theorem C8_witness :
    RVal.well_formed RVal.inf ∧
    (calculate_time_to_collision RVal.inf 5 2 1 1).well_formed ∧
    calculate_intelligent_ttc ⟨"unknown", 0, false, false, "none"⟩ 5 =
      RVal.inf :=
  ⟨trivial, (C8_ttc_well_formed.2 RVal.inf 5 2 1 1 trivial).1,
    (C8_ttc_well_formed.1 ⟨"unknown", 0, false, false, "none"⟩ 5).2.1 rfl⟩

/-- C9: on an empty tracked-object list, and likewise when no tracked object
has a vehicle class, `analyze_collision_risk` still returns a well-formed
result: risk level `None`, threat score 0, no primary threat, empty threat
and recommendation lists, zero category counters, and `total_objects` equal
to the input length. -/
theorem C9_empty_input_well_formed
    (cfg : PredictorConfig) (sq : ℚ → ℚ) (h : Hist) (objs : List TrackedObj)
    (lane : LaneInfo) (fh : ℕ)
    (hcond : objs = [] ∨ ∀ o ∈ objs, is_vehicle_class o.class_name = false) :
    (analyze_collision_risk cfg sq h objs lane fh).1.risk_level = "None" ∧
    (analyze_collision_risk cfg sq h objs lane fh).1.threat_score = 0 ∧
    (analyze_collision_risk cfg sq h objs lane fh).1.primary_threat = none ∧
    (analyze_collision_risk cfg sq h objs lane fh).1.threatening_objects = [] ∧
    (analyze_collision_risk cfg sq h objs lane fh).1.recommendations = [] ∧
    (analyze_collision_risk cfg sq h objs lane fh).1.same_lane_threats = 0 ∧
    (analyze_collision_risk cfg sq h objs lane fh).1.oncoming_threats = 0 ∧
    (analyze_collision_risk cfg sq h objs lane fh).1.lane_change_threats = 0 ∧
    (analyze_collision_risk cfg sq h objs lane fh).1.total_objects =
      objs.length := by
  rcases objs with _ | ⟨o, rest⟩
  · simp [analyze_collision_risk, init_result]
  · rcases hcond with h1 | h2
    · exact absurd h1 (by simp)
    · have hv : (o :: rest).filter (fun x => is_vehicle_class x.class_name)
          = [] := by
        rw [List.filter_eq_nil_iff]
        intro a ha
        simp [h2 a ha]
      simp [analyze_collision_risk, hv, init_result]

/-- Witness for C9: a single tracked pedestrian (class `person`). -/
theorem C9_witness :
    (analyze_collision_risk spec_config (fun _ => 0) []
        [⟨7, "person", ⟨0, 0, 10, 30⟩⟩] ⟨[], 0, false, "none", 1280⟩
        720).1.risk_level = "None" ∧
    (analyze_collision_risk spec_config (fun _ => 0) []
        [⟨7, "person", ⟨0, 0, 10, 30⟩⟩] ⟨[], 0, false, "none", 1280⟩
        720).1.total_objects = 1 :=
  have h := C9_empty_input_well_formed spec_config (fun _ => 0) []
    [⟨7, "person", ⟨0, 0, 10, 30⟩⟩] ⟨[], 0, false, "none", 1280⟩ 720
    (Or.inr (by decide))
  ⟨h.1, h.2.2.2.2.2.2.2.2⟩

/-- C7: the tracker's per-frame output is exactly the surviving tracks with
`hits ≥ min_hits` or `time_since_update = 0`; in particular an unconfirmed
track (`hits < min_hits`) is only ever emitted on the exact frame it was
just matched or created (`time_since_update = 0`). -/
theorem C7_emit_confirmed_or_fresh
    (s : KalmanTracker.TrackerState) (u : KalmanTracker.UpdateInput) :
    (∀ t : KalmanTracker.Track,
      t ∈ KalmanTracker.emit (KalmanTracker.step s u) ↔
        t ∈ (KalmanTracker.step s u).trackers ∧
          (KalmanTracker.min_hits ≤ t.hits ∨ t.time_since_update = 0)) ∧
    (∀ t ∈ KalmanTracker.emit (KalmanTracker.step s u),
      t.hits < KalmanTracker.min_hits → t.time_since_update = 0) := by
  have hmem : ∀ t : KalmanTracker.Track,
      t ∈ KalmanTracker.emit (KalmanTracker.step s u) ↔
        t ∈ (KalmanTracker.step s u).trackers ∧
          (KalmanTracker.min_hits ≤ t.hits ∨ t.time_since_update = 0) := by
    intro t
    unfold KalmanTracker.emit
    rw [List.mem_filter]
    simp
  refine ⟨hmem, ?_⟩
  intro t ht hlt
  rcases ((hmem t).mp ht).2 with hc | hc
  · omega
  · exact hc

/-- Witness for C7: from an empty tracker state, one high-confidence
detection creates track 1 with `hits = 1 < min_hits`; it is emitted and
indeed has `time_since_update = 0`. -/
theorem C7_witness :
    (⟨1, 1, 0, 0⟩ : KalmanTracker.Track).time_since_update = 0 ∧
    (⟨1, 1, 0, 0⟩ : KalmanTracker.Track) ∈
      KalmanTracker.emit
        (KalmanTracker.step ⟨[], 1⟩ ⟨fun _ => false, 1⟩) :=
  ⟨(C7_emit_confirmed_or_fresh ⟨[], 1⟩ ⟨fun _ => false, 1⟩).2
      ⟨1, 1, 0, 0⟩ (by decide) (by decide), by decide⟩

lemma hist_put_keys (h : Hist) (k : ℕ) (v : List (ℚ × ℚ)) :
    hist_keys h ⊆ hist_keys (hist_put h k v) := by
  unfold hist_put
  split_ifs with hc
  · intro a ha
    unfold hist_keys at ha ⊢
    rcases List.mem_map.mp ha with ⟨p, hp, rfl⟩
    apply List.mem_map.mpr
    refine ⟨if p.1 == k then (k, v) else p, List.mem_map_of_mem _ hp, ?_⟩
    by_cases hb : (p.1 == k) = true
    · rw [if_pos hb]
      rw [beq_iff_eq] at hb
      exact hb.symm
    · rw [if_neg hb]
  · intro a ha
    unfold hist_keys at ha ⊢
    rw [List.map_append]
    exact List.mem_append_left _ ha

lemma analyze_vehicle_movement_keys (sq : ℚ → ℚ) (h : Hist)
    (veh : TrackedObj) :
    hist_keys h ⊆ hist_keys (analyze_vehicle_movement sq h veh).2 := by
  unfold analyze_vehicle_movement
  dsimp only
  split_ifs <;> exact hist_put_keys _ _ _

lemma threat_loop_step_keys (cfg : PredictorConfig) (sq : ℚ → ℚ)
    (lane : LaneInfo) (fh : ℕ) (acc : ThreatAccum × Hist)
    (veh : TrackedObj) :
    hist_keys acc.2 ⊆
      hist_keys (threat_loop_step cfg sq lane fh acc veh).2 := by
  unfold threat_loop_step analyze_vehicle_threat
  dsimp only
  split_ifs <;> exact analyze_vehicle_movement_keys sq acc.2 veh

lemma foldl_threat_loop_keys (cfg : PredictorConfig) (sq : ℚ → ℚ)
    (lane : LaneInfo) (fh : ℕ) (vehicles : List TrackedObj)
    (acc : ThreatAccum × Hist) :
    hist_keys acc.2 ⊆
      hist_keys (vehicles.foldl
        (threat_loop_step cfg sq lane fh) acc).2 := by
  induction vehicles generalizing acc with
  | nil => exact fun a ha => ha
  | cons v vs ih =>
    exact fun a ha =>
      ih (threat_loop_step cfg sq lane fh acc v)
        (threat_loop_step_keys cfg sq lane fh acc v ha)

/-- No `analyze_collision_risk` call ever removes a key from the
`vehicle_history` map: the retained key set only grows. -/
lemma analyze_collision_risk_keys_monotone (cfg : PredictorConfig)
    (sq : ℚ → ℚ) (h : Hist) (objs : List TrackedObj) (lane : LaneInfo)
    (fh : ℕ) :
    hist_keys h ⊆
      hist_keys (analyze_collision_risk cfg sq h objs lane fh).2 := by
  unfold analyze_collision_risk
  dsimp only
  split_ifs
  · exact fun a ha => ha
  · exact fun a ha => ha
  · show hist_keys h ⊆ hist_keys
        ((objs.filter (fun o => is_vehicle_class o.class_name)).foldl
          (threat_loop_step cfg sq lane fh) (⟨[], 0, 0, 0, 0, none⟩, h)).2
    exact foldl_threat_loop_keys cfg sq lane fh
      (List.filter (fun o => is_vehicle_class o.class_name) objs)
      (⟨⟨[], 0, 0, 0, 0, none⟩, h⟩)

/-- C6: in any well-formed tracker state, a track whose
`time_since_update` counter has reached `max_age` and that again receives no
matching detection (so the counter exceeds `max_age` after this frame's
predict step) is removed from the track set during that `update` call, and —
because track ids are allocated from the strictly increasing `next_id` and
never reused — it appears in neither that frame's nor any later frame's
track set or emitted output. -/
theorem C6_stale_track_evicted_permanently
    (s : KalmanTracker.TrackerState) (hwf : KalmanTracker.wf s)
    (t : KalmanTracker.Track) (ht : t ∈ s.trackers)
    (hstale : KalmanTracker.max_age ≤ t.time_since_update)
    (u : KalmanTracker.UpdateInput) (hunmatched : u.matched t.id = false)
    (us : List KalmanTracker.UpdateInput) :
    t.id ∉ (KalmanTracker.run (KalmanTracker.step s u) us).trackers.map
        KalmanTracker.Track.id ∧
    t.id ∉ (KalmanTracker.emit (KalmanTracker.run (KalmanTracker.step s u)
        us)).map KalmanTracker.Track.id := by
  have hrem := KalmanTracker.stale_unmatched_removed s u hwf t ht hstale
    hunmatched
  have hlt : t.id < (KalmanTracker.step s u).next_id := by
    have h0 := hwf.1 t ht
    show t.id < s.next_id + u.new_count
    omega
  have habs := KalmanTracker.id_absent_run us (KalmanTracker.step s u)
    t.id hlt hrem
  exact ⟨habs, fun hmem =>
    habs (KalmanTracker.emit_ids_subset _ t.id hmem)⟩

/-- Witness for C6: a single confirmed track (id 1, `time_since_update = 5 =
max_age`) goes unmatched once more while a new detection spawns track 2;
after that frame and one further arbitrary frame, id 1 is gone from the
track set and from the output. -/
theorem C6_witness :
    (1 : ℕ) ∉ (KalmanTracker.run
        (KalmanTracker.step ⟨[⟨1, 4, 5, 9⟩], 2⟩ ⟨fun _ => false, 1⟩)
        [⟨fun _ => true, 0⟩]).trackers.map KalmanTracker.Track.id ∧
    (1 : ℕ) ∉ (KalmanTracker.emit (KalmanTracker.run
        (KalmanTracker.step ⟨[⟨1, 4, 5, 9⟩], 2⟩ ⟨fun _ => false, 1⟩)
        [⟨fun _ => true, 0⟩])).map KalmanTracker.Track.id :=
  C6_stale_track_evicted_permanently ⟨[⟨1, 4, 5, 9⟩], 2⟩
    ⟨by decide, by decide⟩ ⟨1, 4, 5, 9⟩ (by decide) (by decide)
    ⟨fun _ => false, 1⟩ (by decide) [⟨fun _ => true, 0⟩]

/-- C2 is violated by the code: `_analyze_vehicle_movement` only ever inserts
into `vehicle_history` and no code path deletes a key
(`analyze_collision_risk_keys_monotone`), so the claimed eviction invariant
fails.  Concretely: track 1 is seen once, then 6 consecutive frames
(> the tracker's `max_age` = 5) contain only track 2, yet after those calls
the history map still holds the entry for track 1. -/
theorem C2_history_entry_never_evicted :
    KalmanTracker.max_age < 6 ∧
    (let lane : LaneInfo := ⟨[], 0, false, "none", 1280⟩
     let h1 := (analyze_collision_risk spec_config (fun _ => 0) []
        [⟨1, "car", ⟨100, 0, 160, 15⟩⟩] lane 100).2
     let h7 := (List.range 6).foldl (fun h _ =>
        (analyze_collision_risk spec_config (fun _ => 0) h
          [⟨2, "car", ⟨100, 0, 160, 15⟩⟩] lane 100).2) h1
     hist_keys h7 = [1, 2] ∧ 1 ∈ hist_keys h7) := by
  decide

end DriveWise
